import Mathlib

/-!
Shallow embedding of the EU Digital COVID Certificate UVCI parser
(`src/lib.rs` of the repository) and proofs about it.

Strings are modelled as Lean `String`s; the Rust operations that work on
UTF-8 byte counts (`str::len`, byte-range slicing) are modelled explicitly
through `utf8Len` and `byteSplit`, so that the byte/character distinction
of the source is preserved.  Rust's `str::split` on a one-character pattern
is modelled by `splitChar`, `str::replace` with a one-character pattern by
`replaceChar`, and `str::to_uppercase` character-wise by `rustToUppercase`
(the inputs of interest are ASCII).  A Rust panic (a byte-range slice whose
end is not a character boundary) is modelled by returning `none`: `parse`
returns `Option Uvci`, with `none` standing for a panic.

The external `luhn` crate and the floating-point date estimator are not
part of the repository's sources: the Luhn validator is modelled from the
spec (see `luhnValidate`), and the date estimator is a parameter
`dateEst : String → Nat × Nat` of `parse`, since its `f32` tangent curve
has no exact counterpart in the source text.
-/

/-- UTF-8 size in bytes of one character, from its code point. -/
def charUtf8Size (c : Char) : Nat :=
  if c.toNat ≤ 0x7F then 1
  else if c.toNat ≤ 0x7FF then 2
  else if c.toNat ≤ 0xFFFF then 3
  else 4

/-- Rust `str::len`: the length of a string in UTF-8 bytes. -/
def utf8Len (s : String) : Nat :=
  s.data.foldr (fun c n => charUtf8Size c + n) 0

/-- Rust `str::split` with a one-character pattern, on the character list:
always returns at least one (possibly empty) piece. -/
def splitChar (sep : Char) : List Char → List (List Char)
  | [] => [[]]
  | c :: rest =>
    match splitChar sep rest with
    | [] => [[]]
    | h :: t => if c = sep then [] :: h :: t else (c :: h) :: t

/-- Split a character list after exactly `n` UTF-8 bytes.  `none` when byte
index `n` falls strictly inside a character: a Rust byte-range slice with
that endpoint panics. -/
def byteSplitAux : Nat → List Char → Option (List Char × List Char)
  | 0, cs => some ([], cs)
  | _ + 1, [] => none
  | n + 1, c :: rest =>
    if charUtf8Size c ≤ n + 1 then
      match byteSplitAux (n + 1 - charUtf8Size c) rest with
      | some (a, b) => some (c :: a, b)
      | none => none
    else none

/-- Rust `&s[0..n]` / `&s[n..]` as one operation: the two sides of the byte
split, or `none` (panic) when `n` is not a character boundary of `s`. -/
def byteSplit (n : Nat) (s : String) : Option (String × String) :=
  (byteSplitAux n s.data).map (fun p => (String.mk p.1, String.mk p.2))

/-- Rust `str::to_uppercase`, character-wise (faithful on ASCII, which is
all the grammar ever compares against). -/
def rustToUppercase (s : String) : String :=
  String.mk (s.data.map Char.toUpper)

/-- Rust `u8::from_str`: an optional leading `+`, then one or more ASCII
digits, and the value must fit in `u8`. -/
def parseU8 (s : String) : Option Nat :=
  let cs := match s.data with
    | '+' :: rest => rest
    | cs => cs
  if cs = [] then none
  else if cs.all (fun c => c.isDigit) then
    let v := cs.foldl (fun acc c => acc * 10 + (c.toNat - 48)) 0
    if v ≤ 255 then some v else none
  else none

/-- The parsed UVCI record (`struct Uvci` of `src/lib.rs`). -/
structure Uvci where
  version : Nat
  country : String
  schema_option_number : Nat
  schema_option_desc : String
  issuing_entity : String
  vaccine_id : String
  opaque_unique_string : String
  opaque_id : String
  opaque_issuance : String
  opaque_vaccination_month : Nat
  opaque_vaccination_year : Nat
  checksum : String
  checksum_verification : Bool
deriving DecidableEq, Repr

/-- The all-default record `parse` starts from (every field at its
type-appropriate zero value). -/
def defaultUvci : Uvci :=
  { version := 0
    country := ""
    schema_option_number := 0
    schema_option_desc := ""
    issuing_entity := ""
    vaccine_id := ""
    opaque_unique_string := ""
    opaque_id := ""
    opaque_issuance := ""
    opaque_vaccination_month := 0
    opaque_vaccination_year := 0
    checksum := ""
    checksum_verification := false }

/-- Rust `str::replace` with a one-character pattern and a one-character
replacement: substitute every occurrence. -/
def replaceChar (a b : Char) (cs : List Char) : List Char :=
  cs.map (fun c => if c = a then b else c)

/-- `rearrange` of `src/lib.rs`: uppercase, drop `#`, then the source's
sequence of single-character `replace` calls (lowercase intermediates keep
later steps from touching already-substituted characters), and a final
uppercase pass. -/
def rearrange (certId : String) : String :=
  let cs := (rustToUppercase certId).data
  let cs := cs.filter (fun c => c ≠ '#')
  let cs := replaceChar 'M' 'a' cs
  let cs := replaceChar 'N' 'b' cs
  let cs := replaceChar 'O' 'c' cs
  let cs := replaceChar 'P' 'd' cs
  let cs := replaceChar 'Q' 'e' cs
  let cs := replaceChar 'R' 'f' cs
  let cs := replaceChar 'S' 'g' cs
  let cs := replaceChar 'T' 'h' cs
  let cs := replaceChar 'U' 'i' cs
  let cs := replaceChar 'V' 'j' cs
  let cs := replaceChar 'W' 'k' cs
  let cs := replaceChar 'X' 'l' cs
  let cs := replaceChar 'Y' 'm' cs
  let cs := replaceChar 'Z' 'm' cs
  let cs := replaceChar '0' 'o' cs
  let cs := replaceChar '1' 'p' cs
  let cs := replaceChar '2' 'q' cs
  let cs := replaceChar '3' 'r' cs
  let cs := replaceChar '4' 's' cs
  let cs := replaceChar '5' 't' cs
  let cs := replaceChar '6' 'u' cs
  let cs := replaceChar '7' 'v' cs
  let cs := replaceChar '8' 'w' cs
  let cs := replaceChar '9' 'x' cs
  let cs := replaceChar '/' 'y' cs
  let cs := replaceChar ':' 'z' cs
  let cs := replaceChar 'A' '/' cs
  let cs := replaceChar 'B' '0' cs
  let cs := replaceChar 'C' '1' cs
  let cs := replaceChar 'D' '2' cs
  let cs := replaceChar 'E' '3' cs
  let cs := replaceChar 'F' '4' cs
  let cs := replaceChar 'G' '5' cs
  let cs := replaceChar 'H' '6' cs
  let cs := replaceChar 'I' '7' cs
  let cs := replaceChar 'J' '8' cs
  let cs := replaceChar 'K' '9' cs
  let cs := replaceChar 'L' ':' cs
  String.mk (cs.map Char.toUpper)

/-- The alphabet the checksum primitive is constructed with
(`Luhn::new("/0123456789:ABCDEFGHIJKLMNOPQRSTUVWXYZ")`). -/
def targetAlphabet : List Char := "/0123456789:ABCDEFGHIJKLMNOPQRSTUVWXYZ".data

/-- Modelled from the spec: the external `luhn` crate's digit value of a
character, its index in the validator's alphabet.  The spec leaves
characters outside the alphabet undefined; they take the out-of-range
index `alphabet.length` here (the real crate reports an error for them). -/
def luhnIndex (alphabet : List Char) (c : Char) : Nat :=
  alphabet.indexOf c

/-- Modelled from the spec: the alternating Luhn sum over digit values
listed from the rightmost position; the rightmost value enters as is, every
second value is doubled and reduced by the standard Luhn mod-N carry
(`d / n + d % n`). -/
def luhnSum (n : Nat) : List Nat → Bool → Nat
  | [], _ => 0
  | v :: rest, dbl =>
    (if dbl then 2 * v / n + 2 * v % n else v) + luhnSum n rest (!dbl)

/-- Modelled from the spec: the external generalized Luhn mod-N validator
(`luhn` crate) the repository depends on as a black box.  The whole string,
trailing check character included, must sum to zero modulo the radix. -/
def luhnValidate (alphabet : List Char) (s : String) : Bool :=
  luhnSum alphabet.length (s.data.reverse.map (luhnIndex alphabet)) false
    % alphabet.length = 0

/-- Stages 3 and 4 of `parse`: uppercase the input and prepend `URN:UVCI:`
when the string does not already start with it. -/
def canonicalize (certId : String) : String :=
  let up := rustToUppercase certId
  if "URN:UVCI:".data.isPrefixOf up.data then up else "URN:UVCI:" ++ up

/-- Schema dispatch (stage 8 of `parse`): the `match` on the number of
`/`-separated segments of the fifth colon block. -/
def applySchema (segs : List String) (u : Uvci) : Uvci :=
  match segs with
  | [s0, s1, s2] =>
    { u with schema_option_number := 1
             schema_option_desc := "identifier with semantics"
             issuing_entity := s0
             vaccine_id := s1
             opaque_unique_string := s2 }
  | [s0] =>
    { u with schema_option_number := 2
             schema_option_desc := "opaque identifier - no structure"
             opaque_unique_string := s0 }
  | [s0, s1] =>
    { u with schema_option_number := 3
             schema_option_desc := "some semantics"
             issuing_entity := s0
             opaque_unique_string := s1 }
  | _ => u

/-- Stage 9 of `parse`: the Sweden/EHM sub-extraction.  The byte slices
`[0..9]` and `[9..13]` of the source are `byteSplit 9`; `none` models the
panic when byte 9 is not a character boundary.  `dateEst` stands for
`get_vaccination_date_tan`. -/
def nationalExtract (dateEst : String → Nat × Nat) (u : Uvci) : Option Uvci :=
  if u.version = 1 ∧ u.country = "SE" ∧ u.issuing_entity = "EHM"
      ∧ u.schema_option_number = 3 then
    if utf8Len u.opaque_unique_string = 13 then
      match byteSplit 9 u.opaque_unique_string with
      | some (a, b) =>
        some { u with opaque_id := a
                      opaque_issuance := b
                      opaque_vaccination_month := (dateEst a).1
                      opaque_vaccination_year := (dateEst a).2 }
      | none => none
    else some u
  else some u

/-- Block 2 as the schema version: set `version` when the text parses as a
`u8`, keep the record unchanged otherwise (the source's
`if temp.parse::<u8>().is_ok()`). -/
def applyVersion (x : Option Nat) (u : Uvci) : Uvci :=
  match x with
  | some v => { u with version := v }
  | none => u

/-- Stages 7 to 9 of `parse`: the colon blocks of the body.  `u` is the
record accumulated so far (checksum fields already set). -/
def parseBlocks (dateEst : String → Nat × Nat) (u : Uvci)
    (vec : List (List Char)) : Option Uvci :=
  if vec.getD 0 [] ≠ "URN".data ∧ vec.getD 1 [] ≠ "UVCI".data then some u
  else if vec.length < 4 then some u
  else
    let u := applyVersion (parseU8 (String.mk (vec.getD 2 []))) u
    let u := { u with country := String.mk (vec.getD 3 []) }
    if vec.length < 5 then some u
    else
      nationalExtract dateEst
        (applySchema ((splitChar '/' (vec.getD 4 [])).map String.mk) u)

/-- `parse` of `src/lib.rs`, with the floating-point date estimator
abstracted as the parameter `dateEst`.  `none` models a panic. -/
def parse (dateEst : String → Nat × Nat) (certId : String) : Option Uvci :=
  if certId = "" then some defaultUvci
  else if 72 < utf8Len certId then some defaultUvci
  else
    let c := canonicalize certId
    let pieces := splitChar '#' c.data
    let u := { defaultUvci with
               checksum_verification := luhnValidate targetAlphabet (rearrange c)
               checksum := if 1 < pieces.length
                 then String.mk (pieces.getD 1 []) else "" }
    parseBlocks dateEst u (splitChar ':' (pieces.getD 0 []))

/-- A date estimator with no information: both fields at their defaults.
Used to instantiate `parse` at concrete inputs. -/
def dZero : String → Nat × Nat := fun _ => (0, 0)

/-- The month label of `to_graph`'s `match` on the vaccination month. -/
def monthAbbrev (m : Nat) : String :=
  match m with
  | 1 => "Jan"
  | 2 => "Feb"
  | 3 => "Mar"
  | 4 => "Apr"
  | 5 => "May"
  | 6 => "Jun"
  | 7 => "Jul"
  | 8 => "Aug"
  | 9 => "Sep"
  | 10 => "Oct"
  | 11 => "Nov"
  | 12 => "Dec"
  | _ => "Unknown"

/-- `to_graph` of `src/lib.rs`: the Neo4j Cypher statements for one parsed
record, or the empty string when the record is not a Sweden EHM-issued
certificate.  Literal braces of the Cypher text are written `\x7b`/`\x7d`. -/
def to_graph (u : Uvci) : String :=
  if ¬(u.version = 1 ∧ u.country = "SE" ∧ u.issuing_entity = "EHM"
        ∧ u.schema_option_number = 3) then ""
  else
    let varDateName := "d" ++ toString u.opaque_vaccination_year
      ++ toString u.opaque_vaccination_month
    let varDateData := monthAbbrev u.opaque_vaccination_month ++ " "
      ++ toString u.opaque_vaccination_year
    "CREATE (" ++ u.country ++ ":country \x7bname:'Sweden'\x7d)-[:COUNTRY_OF \x7b\x7d]->("
      ++ u.issuing_entity ++ ":issuing_entity \x7bname:'E-Hälso Myndigheten'\x7d)\n"
    ++ "CREATE (" ++ u.issuing_entity ++ ")-[:ISSUER_OF \x7b\x7d]->("
      ++ u.opaque_id ++ ":opaque_id \x7bname:'" ++ u.opaque_id ++ "'\x7d)\n"
    ++ "CREATE (" ++ varDateName ++ ":vac_date \x7bname:'" ++ varDateData ++ "'\x7d)\n"
    ++ "CREATE (" ++ varDateName ++ ")-[:VAC_DATE_OF \x7b\x7d]->(" ++ u.opaque_id ++ ")\n"
    ++ "CREATE (" ++ u.opaque_unique_string ++ ":reissue_id \x7bname:'"
      ++ u.opaque_issuance ++ "'\x7d)-[:REISSUE_OF \x7b\x7d]->(" ++ u.opaque_id ++ ")\n"

/-- `uvci_to_graph` of `src/lib.rs`: parse one identifier and export it.
`none` models a panic of `parse`. -/
def uvci_to_graph (dateEst : String → Nat × Nat) (certId : String) :
    Option String :=
  (parse dateEst certId).map to_graph

/-- The native symbol order of the identifier alphabet (§4.1 of the spec). -/
def nativeOrder : List Char := "ABCDEFGHIJKLMNOPQRSTUVWXYZ0123456789/:".data

/-- Modelled from the spec: the remapping the spec describes, sending the
k-th symbol of the native order to the k-th symbol of the target order and
leaving other characters alone. -/
def specRemapChar (c : Char) : Char :=
  match nativeOrder.indexOf? c with
  | some k => targetAlphabet.getD k c
  | none => c

/-- Modelled from the spec: the spec's character-wise remapping lifted to
strings. -/
def specRearrange (s : String) : String :=
  String.mk (s.data.map specRemapChar)

/-- The character map the source's `rearrange` actually implements on the
native alphabet: k-th to k-th except that `Z` goes to `M` (the image of
`Y`) instead of `N`. -/
def rearrangeChar (c : Char) : Char :=
  if c = 'Z' then 'M' else specRemapChar c

theorem charUtf8Size_pos (c : Char) : 1 ≤ charUtf8Size c := by
  unfold charUtf8Size
  split <;> [skip; split] <;> [omega; skip; split] <;> omega

theorem length_le_utf8Len (s : String) : s.length ≤ utf8Len s := by
  show s.data.length ≤ utf8Len s
  unfold utf8Len
  induction s.data with
  | nil => simp
  | cons c cs ih =>
    have := Nat.add_le_add (charUtf8Size_pos c) ih
    simp only [List.length_cons, List.foldr_cons]
    omega

/-- C9: an input longer than 72 characters is rejected by the length guard
(the guard compares UTF-8 byte length, which is at least the character
count), and `parse` returns the all-default record. -/
theorem parse_length_guard (dateEst : String → Nat × Nat) (s : String)
    (h : 72 < s.length) : parse dateEst s = some defaultUvci := by
  have hne : s ≠ "" := by
    intro he
    rw [he] at h
    simp [String.length] at h
  have hlen : 72 < utf8Len s := lt_of_lt_of_le h (length_le_utf8Len s)
  unfold parse
  rw [if_neg hne, if_pos hlen]

theorem parse_length_guard_witness :
    72 < (String.mk (List.replicate 73 'A')).length ∧
      parse dZero (String.mk (List.replicate 73 'A')) = some defaultUvci :=
  ⟨by decide, parse_length_guard dZero (String.mk (List.replicate 73 'A')) (by decide)⟩

/-- C1: `parse` is not total.  On an input whose 13-byte opaque string has
a multi-byte character astride byte index 9, the five-way condition of the
national sub-extraction holds and the byte-range slice
`&opaque_unique_string[0..9]` hits a non-boundary index: the Rust code
panics (modelled by `none`), for any date estimator. -/
theorem parse_panic_on_multibyte_opaque (dateEst : String → Nat × Nat) :
    parse dateEst "URN:UVCI:01:SE:EHM/AAAAAAAAÉ123" = none := rfl

set_option maxRecDepth 8000 in
/-- C7: checksum calibration.  The fifteen reference identifiers verify,
and the same fifteen bodies with the corrupted trailing check characters
A,B,C,D,E,F,G,H,0,1,2,3,4,5,9 all fail, exactly as the repository's tests
require. -/
theorem checksum_calibration :
    (parse dZero "URN:UVCI:01:SE:EHM/V12907267LAJW#E").map Uvci.checksum_verification = some true
    ∧ (parse dZero "URN:UVCI:01:SE:EHM/V12916227TFJJ#Q").map Uvci.checksum_verification = some true
    ∧ (parse dZero "URN:UVCI:01:SE:EHM/V12920064NYOH#4").map Uvci.checksum_verification = some true
    ∧ (parse dZero "URN:UVCI:01:SE:EHM/V12923931NNBY#T").map Uvci.checksum_verification = some true
    ∧ (parse dZero "URN:UVCI:01:SE:EHM/V12939008LSVR#F").map Uvci.checksum_verification = some true
    ∧ (parse dZero "URN:UVCI:01:SE:EHM/V12939037PXFJ#V").map Uvci.checksum_verification = some true
    ∧ (parse dZero "URN:UVCI:01:SE:EHM/V12940126MRXQ#N").map Uvci.checksum_verification = some true
    ∧ (parse dZero "URN:UVCI:01:SE:EHM/V12956472WRGE#7").map Uvci.checksum_verification = some true
    ∧ (parse dZero "URN:UVCI:01:SE:EHM/V12965046ALNM#I").map Uvci.checksum_verification = some true
    ∧ (parse dZero "URN:UVCI:01:SE:EHM/V12982924YQMV#T").map Uvci.checksum_verification = some true
    ∧ (parse dZero "URN:UVCI:01:SE:EHM/V12991074UCIC#4").map Uvci.checksum_verification = some true
    ∧ (parse dZero "URN:UVCI:01:SE:EHM/V12993686OVCX#R").map Uvci.checksum_verification = some true
    ∧ (parse dZero "URN:UVCI:01:SE:EHM/V12996544DVKM#M").map Uvci.checksum_verification = some true
    ∧ (parse dZero "URN:UVCI:01:SE:EHM/V12997980ASMG#1").map Uvci.checksum_verification = some true
    ∧ (parse dZero "URN:UVCI:01:SE:EHM/V12998404MNQF#6").map Uvci.checksum_verification = some true
    ∧ (parse dZero "URN:UVCI:01:SE:EHM/V12907267LAJW#A").map Uvci.checksum_verification = some false
    ∧ (parse dZero "URN:UVCI:01:SE:EHM/V12916227TFJJ#B").map Uvci.checksum_verification = some false
    ∧ (parse dZero "URN:UVCI:01:SE:EHM/V12920064NYOH#C").map Uvci.checksum_verification = some false
    ∧ (parse dZero "URN:UVCI:01:SE:EHM/V12923931NNBY#D").map Uvci.checksum_verification = some false
    ∧ (parse dZero "URN:UVCI:01:SE:EHM/V12939008LSVR#E").map Uvci.checksum_verification = some false
    ∧ (parse dZero "URN:UVCI:01:SE:EHM/V12939037PXFJ#F").map Uvci.checksum_verification = some false
    ∧ (parse dZero "URN:UVCI:01:SE:EHM/V12940126MRXQ#G").map Uvci.checksum_verification = some false
    ∧ (parse dZero "URN:UVCI:01:SE:EHM/V12956472WRGE#H").map Uvci.checksum_verification = some false
    ∧ (parse dZero "URN:UVCI:01:SE:EHM/V12965046ALNM#0").map Uvci.checksum_verification = some false
    ∧ (parse dZero "URN:UVCI:01:SE:EHM/V12982924YQMV#1").map Uvci.checksum_verification = some false
    ∧ (parse dZero "URN:UVCI:01:SE:EHM/V12991074UCIC#2").map Uvci.checksum_verification = some false
    ∧ (parse dZero "URN:UVCI:01:SE:EHM/V12993686OVCX#3").map Uvci.checksum_verification = some false
    ∧ (parse dZero "URN:UVCI:01:SE:EHM/V12996544DVKM#4").map Uvci.checksum_verification = some false
    ∧ (parse dZero "URN:UVCI:01:SE:EHM/V12997980ASMG#5").map Uvci.checksum_verification = some false
    ∧ (parse dZero "URN:UVCI:01:SE:EHM/V12998404MNQF#9").map Uvci.checksum_verification = some false := by
  repeat' constructor

set_option maxRecDepth 8000 in
/-- C3 counterexample: the source's `rearrange` does not send every native
symbol k-th to k-th.  `Z`, the 26th native symbol, would have to go to `N`,
the 26th target symbol, but `rearrange` sends it to `M` (the image of `Y`). -/
theorem rearrange_kth_symbol_cex :
    rearrange "Z" = "M" ∧ specRearrange "Z" = "N"
      ∧ rearrange "Z" ≠ specRearrange "Z" := by
  refine ⟨rfl, rfl, ?_⟩
  decide

set_option maxRecDepth 8000 in
/-- C3 (amended): on strings drawn from the native alphabet, `rearrange`
is the character-wise map that agrees with the spec's k-th-to-k-th table on
every symbol except `Z`, which it sends to `M` instead of `N`. -/
theorem rearrange_native_map (s : String)
    (h : ∀ c ∈ s.data, c ∈ nativeOrder) :
    (rearrange s).data = s.data.map rearrangeChar := by
  have hup : ∀ c ∈ nativeOrder, Char.toUpper c = c := by decide
  have hhash : ∀ c ∈ nativeOrder, c ≠ '#' := by decide
  show (rearrange s).data = _
  unfold rearrange rustToUppercase replaceChar
  simp only [List.map_map]
  have hfix : s.data.map Char.toUpper = s.data := by
    rw [List.map_congr_left (fun c hc => hup c (h c hc))]
    exact List.map_id _
  rw [hfix]
  have hfil : s.data.filter (fun c => c ≠ '#') = s.data := by
    rw [List.filter_eq_self]
    intro c hc
    simpa using hhash c (h c hc)
  rw [hfil]
  refine List.map_congr_left ?_
  intro c hc
  have hcn := h c hc
  fin_cases hcn <;> rfl

set_option maxRecDepth 8000 in
/-- Witness for the amended C3 at the concrete native-alphabet string
`AZ09/:`. -/
theorem rearrange_native_map_witness :
    (rearrange "AZ09/:").data = ("AZ09/:" : String).data.map rearrangeChar :=
  rearrange_native_map "AZ09/:" (by decide)

/-- C5: the schema dispatch of `parse` stage 8, as one equation: three
`/`-segments select option 1 (identifier with semantics), one segment
option 2 (opaque identifier), two segments option 3 (some semantics), and
any other count leaves the record untouched. -/
theorem schema_dispatch (u : Uvci) (segs : List String) :
    applySchema segs u =
      if segs.length = 3 then
        { u with schema_option_number := 1
                 schema_option_desc := "identifier with semantics"
                 issuing_entity := segs.getD 0 ""
                 vaccine_id := segs.getD 1 ""
                 opaque_unique_string := segs.getD 2 "" }
      else if segs.length = 1 then
        { u with schema_option_number := 2
                 schema_option_desc := "opaque identifier - no structure"
                 opaque_unique_string := segs.getD 0 "" }
      else if segs.length = 2 then
        { u with schema_option_number := 3
                 schema_option_desc := "some semantics"
                 issuing_entity := segs.getD 0 ""
                 opaque_unique_string := segs.getD 1 "" }
      else u := by
  match segs with
  | [] => rfl
  | [a] => rfl
  | [a, b] => rfl
  | [a, b, c] => rfl
  | a :: b :: c :: d :: t =>
    have h3 : ¬((a :: b :: c :: d :: t).length = 3) := by simp
    have h1 : ¬((a :: b :: c :: d :: t).length = 1) := by simp
    have h2 : ¬((a :: b :: c :: d :: t).length = 2) := by simp
    rw [if_neg h3, if_neg h1, if_neg h2]
    rfl

/-- C2 counterexample: on `URN:UVCI:01:SE:EHM/SHORT` the parsed record has
`opaque_unique_string` of length 5, so the five-way condition of stage 9
fails, yet the graph export still emits statements: `to_graph` does not
check the length. -/
theorem to_graph_five_way_cex :
    (parse dZero "URN:UVCI:01:SE:EHM/SHORT").map Uvci.opaque_unique_string
        = some "SHORT"
      ∧ uvci_to_graph dZero "URN:UVCI:01:SE:EHM/SHORT" ≠ some "" := by
  constructor
  · rfl
  · decide

/-- C2 (amended): the graph export gates only on the four-way condition
version 1, country `SE`, issuing entity `EHM`, schema option 3; the
length-13 requirement of stage 9 is not part of the gate, so the output is
empty exactly when one of the four fails. -/
theorem to_graph_gate (u : Uvci) :
    to_graph u = "" ↔
      ¬(u.version = 1 ∧ u.country = "SE" ∧ u.issuing_entity = "EHM"
          ∧ u.schema_option_number = 3) := by
  constructor
  · intro he hcond
    unfold to_graph at he
    rw [if_neg (not_not_intro hcond)] at he
    have hl := congrArg String.length he
    simp only [String.length_append] at hl
    have h8 : ("CREATE (" : String).length = 8 := rfl
    have h0 : ("" : String).length = 0 := rfl
    omega
  · intro hn
    unfold to_graph
    rw [if_pos hn]

theorem splitChar_ne_nil (sep : Char) (l : List Char) : splitChar sep l ≠ [] := by
  cases l with
  | nil => simp [splitChar]
  | cons c rest =>
    unfold splitChar
    cases splitChar sep rest with
    | nil => simp
    | cons h t =>
      by_cases hc : c = sep <;> simp [hc]

/-- The canonicalized string always carries the `URN:UVCI:` prefix. -/
theorem canonicalize_prefix (s : String) :
    ∃ t, (canonicalize s).data = "URN:UVCI:".data ++ t := by
  simp only [canonicalize]
  split
  · next hp =>
    obtain ⟨t, ht⟩ := (List.isPrefixOf_iff_prefix.mp hp)
    exact ⟨t, ht.symm⟩
  · refine ⟨(rustToUppercase s).data, ?_⟩
    cases rustToUppercase s
    rfl

/-- Splitting on `#` keeps the colon-bearing prefix in the first piece:
none of the first nine characters is `#`. -/
theorem splitHash_urn (t : List Char) :
    (splitChar '#' ("URN:UVCI:".data ++ t)).getD 0 []
      = 'U' :: 'R' :: 'N' :: ':' :: 'U' :: 'V' :: 'C' :: 'I' :: ':'
          :: ((splitChar '#' t).getD 0 []) := by
  obtain ⟨h, t', hs⟩ : ∃ h t', splitChar '#' t = h :: t' := by
    cases hm : splitChar '#' t with
    | nil => exact absurd hm (splitChar_ne_nil '#' t)
    | cons h t' => exact ⟨h, t', rfl⟩
  simp [splitChar, hs]

/-- Splitting the body on `:` always starts with the blocks `URN`, `UVCI`. -/
theorem splitColon_urn (m : List Char) :
    splitChar ':' ('U' :: 'R' :: 'N' :: ':' :: 'U' :: 'V' :: 'C' :: 'I' :: ':' :: m)
      = "URN".data :: "UVCI".data :: splitChar ':' m := by
  obtain ⟨h, t', hs⟩ : ∃ h t', splitChar ':' m = h :: t' := by
    cases hm : splitChar ':' m with
    | nil => exact absurd hm (splitChar_ne_nil ':' m)
    | cons h t' => exact ⟨h, t', rfl⟩
  simp [splitChar, hs]

/-- C10: for every input, the canonicalized body splits on `:` into at
least three blocks whose first two are `URN` and `UVCI`; the stage-7
rejection (both blocks wrong at once) can therefore never fire, and the
access to block 1 is always in bounds. -/
theorem canonical_blocks (s : String) :
    3 ≤ (splitChar ':' ((splitChar '#' (canonicalize s).data).getD 0 [])).length
    ∧ (splitChar ':' ((splitChar '#' (canonicalize s).data).getD 0 [])).getD 0 []
        = "URN".data
    ∧ (splitChar ':' ((splitChar '#' (canonicalize s).data).getD 0 [])).getD 1 []
        = "UVCI".data
    ∧ ¬((splitChar ':' ((splitChar '#' (canonicalize s).data).getD 0 [])).getD 0 []
          ≠ "URN".data
        ∧ (splitChar ':' ((splitChar '#' (canonicalize s).data).getD 0 [])).getD 1 []
          ≠ "UVCI".data) := by
  obtain ⟨t, ht⟩ := canonicalize_prefix s
  rw [ht, splitHash_urn, splitColon_urn]
  refine ⟨?_, rfl, rfl, ?_⟩
  · have := List.length_pos.mpr (splitChar_ne_nil ':' ((splitChar '#' t).getD 0 []))
    simp only [List.length_cons]
    omega
  · intro hcon
    exact hcon.1 rfl

theorem applySchema_preserves (segs : List String) (u : Uvci) :
    (applySchema segs u).opaque_id = u.opaque_id
    ∧ (applySchema segs u).opaque_issuance = u.opaque_issuance
    ∧ (applySchema segs u).opaque_vaccination_month = u.opaque_vaccination_month
    ∧ (applySchema segs u).opaque_vaccination_year = u.opaque_vaccination_year
    ∧ (applySchema segs u).checksum_verification = u.checksum_verification := by
  match segs with
  | [] => exact ⟨rfl, rfl, rfl, rfl, rfl⟩
  | [a] => exact ⟨rfl, rfl, rfl, rfl, rfl⟩
  | [a, b] => exact ⟨rfl, rfl, rfl, rfl, rfl⟩
  | [a, b, c] => exact ⟨rfl, rfl, rfl, rfl, rfl⟩
  | a :: b :: c :: d :: t => exact ⟨rfl, rfl, rfl, rfl, rfl⟩

theorem nationalExtract_checksum (dateEst : String → Nat × Nat) (u r : Uvci)
    (h : nationalExtract dateEst u = some r) :
    r.checksum_verification = u.checksum_verification := by
  unfold nationalExtract at h
  split at h
  · split at h
    · split at h
      · next a b heq =>
        cases h
        rfl
      · cases h
    · cases h
      rfl
  · cases h
    rfl

theorem applyVersion_checksum (x : Option Nat) (u : Uvci) :
    (applyVersion x u).checksum_verification = u.checksum_verification := by
  cases x <;> rfl

theorem parseBlocks_checksum (dateEst : String → Nat × Nat) (u : Uvci)
    (vec : List (List Char)) (r : Uvci)
    (h : parseBlocks dateEst u vec = some r) :
    r.checksum_verification = u.checksum_verification := by
  unfold parseBlocks at h
  split at h
  · cases h
    rfl
  · split at h
    · cases h
      rfl
    · dsimp only at h
      split at h
      · cases h
        exact applyVersion_checksum _ u
      · have h1 := nationalExtract_checksum _ _ _ h
        rw [h1]
        have h2 := (applySchema_preserves
          ((splitChar '/' (vec.getD 4 [])).map String.mk)
          { applyVersion (parseU8 (String.mk (vec.getD 2 []))) u with
            country := String.mk (vec.getD 3 []) }).2.2.2.2
        rw [h2]
        exact applyVersion_checksum _ u

/-- `parse` past its two guards: the record with the checksum fields set,
handed to the block stages. -/
theorem parse_eq_main (dateEst : String → Nat × Nat) (s : String)
    (hne : s ≠ "") (hlen : ¬ 72 < utf8Len s) :
    parse dateEst s = parseBlocks dateEst
      { defaultUvci with
        checksum_verification := luhnValidate targetAlphabet (rearrange (canonicalize s))
        checksum := if 1 < (splitChar '#' (canonicalize s).data).length
          then String.mk ((splitChar '#' (canonicalize s).data).getD 1 []) else "" }
      (splitChar ':' ((splitChar '#' (canonicalize s).data).getD 0 [])) := by
  unfold parse
  rw [if_neg hne, if_neg hlen]

/-- C8: for every non-empty input within the 72-byte length guard,
`checksum_verification` of whatever record `parse` returns equals the
Luhn verdict on the remapped canonicalized string, independently of how
far the structural stages got before returning. -/
theorem checksum_precomputed (dateEst : String → Nat × Nat) (s : String)
    (r : Uvci) (hp : parse dateEst s = some r) (hne : s ≠ "")
    (hlen : utf8Len s ≤ 72) :
    r.checksum_verification
      = luhnValidate targetAlphabet (rearrange (canonicalize s)) := by
  rw [parse_eq_main dateEst s hne (by omega)] at hp
  have h2 := parseBlocks_checksum _ _ _ _ hp
  rw [h2]

set_option maxRecDepth 8000 in
/-- Witness for C8 at the one-letter input `A`, whose canonical form
`URN:UVCI:A` returns early with fewer than four blocks. -/
theorem checksum_precomputed_witness :
    parse dZero "A" = some defaultUvci
      ∧ defaultUvci.checksum_verification
          = luhnValidate targetAlphabet (rearrange (canonicalize "A")) :=
  ⟨rfl, checksum_precomputed dZero "A" defaultUvci rfl (by decide) (by decide)⟩

/-- C4's property of a parsed record `r`: the four opaque sub-fields are
populated, by the byte split at 9 and the date estimator, exactly when
version 1, country `SE`, issuing entity `EHM`, schema option 3 and a
13-byte `opaque_unique_string` all hold; otherwise they are at their
defaults. -/
def nationalGate (dateEst : String → Nat × Nat) (r : Uvci) : Prop :=
  (r.version = 1 ∧ r.country = "SE" ∧ r.issuing_entity = "EHM"
      ∧ r.schema_option_number = 3 ∧ utf8Len r.opaque_unique_string = 13 →
    byteSplit 9 r.opaque_unique_string = some (r.opaque_id, r.opaque_issuance)
      ∧ r.opaque_vaccination_month = (dateEst r.opaque_id).1
      ∧ r.opaque_vaccination_year = (dateEst r.opaque_id).2)
  ∧ (¬(r.version = 1 ∧ r.country = "SE" ∧ r.issuing_entity = "EHM"
      ∧ r.schema_option_number = 3 ∧ utf8Len r.opaque_unique_string = 13) →
    r.opaque_id = "" ∧ r.opaque_issuance = ""
      ∧ r.opaque_vaccination_month = 0 ∧ r.opaque_vaccination_year = 0)

theorem applyVersion_fields (x : Option Nat) (u : Uvci) :
    (applyVersion x u).issuing_entity = u.issuing_entity
    ∧ (applyVersion x u).opaque_id = u.opaque_id
    ∧ (applyVersion x u).opaque_issuance = u.opaque_issuance
    ∧ (applyVersion x u).opaque_vaccination_month = u.opaque_vaccination_month
    ∧ (applyVersion x u).opaque_vaccination_year = u.opaque_vaccination_year := by
  cases x <;> exact ⟨rfl, rfl, rfl, rfl, rfl⟩

theorem nationalExtract_gate (dateEst : String → Nat × Nat) (u r : Uvci)
    (h : nationalExtract dateEst u = some r)
    (h2 : u.opaque_id = "") (h3 : u.opaque_issuance = "")
    (h4 : u.opaque_vaccination_month = 0) (h5 : u.opaque_vaccination_year = 0) :
    nationalGate dateEst r := by
  unfold nationalExtract at h
  split at h
  · next hc =>
    split at h
    · next hl =>
      split at h
      · next a b heq =>
        cases h
        refine ⟨fun _ => ⟨heq, rfl, rfl⟩, fun hn => ?_⟩
        exact absurd ⟨hc.1, hc.2.1, hc.2.2.1, hc.2.2.2, hl⟩ hn
      · cases h
    · next hl =>
      cases h
      exact ⟨fun hf => absurd hf.2.2.2.2 hl, fun _ => ⟨h2, h3, h4, h5⟩⟩
  · next hc =>
    cases h
    refine ⟨fun hf => absurd ⟨hf.1, hf.2.1, hf.2.2.1, hf.2.2.2.1⟩ hc,
      fun _ => ⟨h2, h3, h4, h5⟩⟩

theorem parseBlocks_gate (dateEst : String → Nat × Nat) (u : Uvci)
    (vec : List (List Char)) (r : Uvci)
    (hv : u.version = 0) (hie : u.issuing_entity = "")
    (h2 : u.opaque_id = "") (h3 : u.opaque_issuance = "")
    (h4 : u.opaque_vaccination_month = 0) (h5 : u.opaque_vaccination_year = 0)
    (h : parseBlocks dateEst u vec = some r) :
    nationalGate dateEst r := by
  unfold parseBlocks at h
  split at h
  · cases h
    refine ⟨fun hf => ?_, fun _ => ⟨h2, h3, h4, h5⟩⟩
    obtain ⟨hf1, -⟩ := hf
    rw [hv] at hf1
    cases hf1
  · split at h
    · cases h
      refine ⟨fun hf => ?_, fun _ => ⟨h2, h3, h4, h5⟩⟩
      obtain ⟨hf1, -⟩ := hf
      rw [hv] at hf1
      cases hf1
    · dsimp only at h
      split at h
      · cases h
        have hav := applyVersion_fields (parseU8 (String.mk (vec.getD 2 []))) u
        refine ⟨fun hf => ?_, fun _ => ?_⟩
        · obtain ⟨-, -, hf3, -⟩ := hf
          have : ({ applyVersion (parseU8 (String.mk (vec.getD 2 []))) u with
              country := String.mk (vec.getD 3 []) } : Uvci).issuing_entity
              = u.issuing_entity := hav.1
          rw [this, hie] at hf3
          exact absurd hf3 (by decide)
        · exact ⟨(hav.2.1).trans h2, (hav.2.2.1).trans h3,
            (hav.2.2.2.1).trans h4, (hav.2.2.2.2).trans h5⟩
      · have hav := applyVersion_fields (parseU8 (String.mk (vec.getD 2 []))) u
        have hap := applySchema_preserves
          ((splitChar '/' (vec.getD 4 [])).map String.mk)
          { applyVersion (parseU8 (String.mk (vec.getD 2 []))) u with
            country := String.mk (vec.getD 3 []) }
        refine nationalExtract_gate _ _ _ h ?_ ?_ ?_ ?_
        · exact (hap.1).trans ((hav.2.1).trans h2)
        · exact (hap.2.1).trans ((hav.2.2.1).trans h3)
        · exact (hap.2.2.1).trans ((hav.2.2.2.1).trans h4)
        · exact (hap.2.2.2.1).trans ((hav.2.2.2.2).trans h5)

/-- C4: for whatever record `parse` returns, the opaque sub-fields
(`opaque_id`, `opaque_issuance`, month, year) are populated — as the first
9 and last 4 bytes of `opaque_unique_string` and the date estimator on
`opaque_id` — exactly under the five-way national condition, and stay at
their defaults under any other combination. -/
theorem national_extraction_gate (dateEst : String → Nat × Nat) (s : String)
    (r : Uvci) (hp : parse dateEst s = some r) :
    nationalGate dateEst r := by
  by_cases hne : s = ""
  · rw [hne] at hp
    unfold parse at hp
    rw [if_pos rfl] at hp
    cases hp
    exact ⟨fun hf => absurd hf.1 (by decide), fun _ => ⟨rfl, rfl, rfl, rfl⟩⟩
  · by_cases hlen : 72 < utf8Len s
    · unfold parse at hp
      rw [if_neg hne, if_pos hlen] at hp
      cases hp
      exact ⟨fun hf => absurd hf.1 (by decide), fun _ => ⟨rfl, rfl, rfl, rfl⟩⟩
    · rw [parse_eq_main dateEst s hne hlen] at hp
      exact parseBlocks_gate _ _ _ _ rfl rfl rfl rfl rfl rfl hp

/-- The record `parse dZero "URN:UVCI:01:SE:EHM/V12916227TFJJ#Q"` produces
(month and year come from `dZero`, which returns the defaults). -/
def rQ : Uvci :=
  { version := 1
    country := "SE"
    schema_option_number := 3
    schema_option_desc := "some semantics"
    issuing_entity := "EHM"
    vaccine_id := ""
    opaque_unique_string := "V12916227TFJJ"
    opaque_id := "V12916227"
    opaque_issuance := "TFJJ"
    opaque_vaccination_month := 0
    opaque_vaccination_year := 0
    checksum := "Q"
    checksum_verification := true }

set_option maxRecDepth 8000 in
/-- Witness for C4 at a concrete Swedish identifier. -/
theorem national_extraction_gate_witness :
    parse dZero "URN:UVCI:01:SE:EHM/V12916227TFJJ#Q" = some rQ
      ∧ nationalGate dZero rQ :=
  ⟨rfl, national_extraction_gate dZero "URN:UVCI:01:SE:EHM/V12916227TFJJ#Q" rQ rfl⟩
